import Mathlib

/-!
Verification of llama-mesh-blender (jupiterbjy/llama-mesh-blender).

Shallow embedding of the add-on's pure logic:
* `src/__init__.py`: the OBJ-line parsers `_obj_vertex_to_bpy` /
  `_obj_face_to_bpy` and the vertex/face accumulation loop of
  `GenerateMesh.execute`;
* `src/llama_cpp_wrapper/_wrapper.py`: `_progressive_download`,
  `_ensure_binary`, `_ensure_gguf` and
  `LlamaCppWrapper.generate_oneshot`.

Python strings are embedded as Lean `String`, Python `float` values as exact
rationals (`ℚ`; exact for the decimal literals the parsers see), byte streams
as `List Nat`, the filesystem as a partial map from path strings to byte
lists, and Python exceptions as an explicit `PyErr` error type threaded
through `Except`.
-/

namespace LlamaMeshBlender

/-- Python exception kinds raised by the embedded code paths. -/
inductive PyErr where
  | typeError      -- e.g. `int(None)`
  | valueError     -- e.g. `int("abc")`, `float("abc")`
  | indexError     -- e.g. `xs[1]` on a one-element list
  | stopIteration  -- `next` on an exhausted iterator
  | runtimeError   -- any other exception (decode errors, consumer throw)
  deriving DecidableEq, Repr

/- ### Python string primitives (embedded over `List Char` / `String`) -/

/-- Split a character list at every character satisfying `p`
(keeping empty pieces), the helper underlying Python's string splitting. -/
def splitOnP (p : Char → Bool) : List Char → List (List Char)
  | [] => [[]]
  | c :: cs =>
    if p c then [] :: splitOnP p cs
    else
      match splitOnP p cs with
      | [] => [[c]]
      | t :: ts => (c :: t) :: ts

/-- Python `str.split()` with no argument: split on runs of whitespace,
discarding empty pieces. -/
def pySplit (s : String) : List String :=
  ((splitOnP Char.isWhitespace s.data).map List.asString).filter (fun t => t ≠ "")

/-- Python `str.strip()` with no argument: drop leading and trailing
whitespace. -/
def pyStrip (s : String) : String :=
  (((s.data.dropWhile Char.isWhitespace).reverse.dropWhile
      Char.isWhitespace).reverse).asString

/-- Python `str.splitlines()`, modelled for `\n` line endings (the marker
file is written by this code with `"\n"` separators): split on `'\n'`,
without a trailing empty piece when the string ends in a newline, and `[]`
on the empty string. -/
def pySplitlines (s : String) : List String :=
  match s.data with
  | [] => []
  | l =>
    let parts := (splitOnP (fun c => c = '\n') l).map List.asString
    if l.getLast? = some '\n' then parts.dropLast else parts

/-- Python `sep.join(parts)`. -/
def pyJoin (sep : String) : List String → String
  | [] => ""
  | [x] => x
  | x :: xs => x ++ sep ++ pyJoin sep xs

/-- Python `s[n:]` for a nonnegative slice start. -/
def pySliceFrom (n : Nat) (s : String) : String :=
  (s.data.drop n).asString

/-- Python `str.startswith(pre)`. -/
def pyStartsWith (pre s : String) : Bool :=
  s.data.take pre.data.length = pre.data

/-- Python `str.lower()`, modelled for ASCII letters
(the name words produced by the model). -/
def pyLower (s : String) : String :=
  (s.data.map Char.toLower).asString

/-- Decimal digit-list value, `none` unless the list is nonempty and all
digits. -/
def parseDigits : List Char → Option Nat
  | [] => none
  | l =>
    if l.all Char.isDigit then
      some (l.foldl (fun acc c => 10 * acc + (c.toNat - '0'.toNat)) 0)
    else none

/-- Python `int(s)` on a whitespace-free token: optional sign followed by
decimal digits; `ValueError` (here `none`) otherwise.
(Underscore digit grouping is not modelled; no token here uses it.) -/
def pyInt (s : String) : Option Int :=
  match s.data with
  | '-' :: rest => (parseDigits rest).map (fun n => -(n : Int))
  | '+' :: rest => (parseDigits rest).map (fun n => (n : Int))
  | l => (parseDigits l).map (fun n => (n : Int))

/-- Python `float(s)` on a whitespace-free token, valued in exact rationals:
optional sign, then digits with an optional fractional part (at least one
digit overall). The decimal tokens the OBJ parser sees are translated
exactly; IEEE-754 rounding of long decimals is not modelled. -/
def pyFloat (s : String) : Option ℚ :=
  let core : List Char → Option ℚ := fun l =>
    match splitOnP (fun c => c = '.') l with
    | [intPart] =>
      (parseDigits intPart).map (fun n => (n : ℚ))
    | [intPart, fracPart] =>
      if intPart = [] ∧ fracPart = [] then none
      else
        let ip : Option Nat := if intPart = [] then some 0 else parseDigits intPart
        let fp : Option Nat := if fracPart = [] then some 0 else parseDigits fracPart
        match ip, fp with
        | some i, some f => some ((i : ℚ) + (f : ℚ) / ((10 : ℚ) ^ fracPart.length))
        | _, _ => none
    | _ => none
  match s.data with
  | '-' :: rest => (core rest).map (fun q => -q)
  | '+' :: rest => core rest
  | l => core l

/- ### `src/__init__.py`: OBJ line parsers -/

/-- `_obj_vertex_to_bpy` (src/__init__.py:62-69): `tuple(map(float, line[2:].split()))`.
Python's `tuple(...)` has whatever length the split produced, so the result
is a list; `none` embeds the `ValueError` a non-numeric token raises. -/
def _obj_vertex_to_bpy (line : String) : Option (List ℚ) :=
  (pySplit (pySliceFrom 2 line)).mapM pyFloat

/-- `_obj_face_to_bpy` (src/__init__.py:72-79): `tuple((int(x) - 1) for x in line[2:].split())`. -/
def _obj_face_to_bpy (line : String) : Option (List Int) :=
  (pySplit (pySliceFrom 2 line)).mapM (fun x => (pyInt x).map (fun i => i - 1))

/- ### `src/__init__.py`: the accumulation loop of `GenerateMesh.execute` -/

/-- The mesh/object name computed at src/__init__.py:130:
`"_".join(word.lower() for word in (next(iterator).strip().split()))`. -/
def meshName (firstLine : String) : String :=
  pyJoin "_" ((pySplit (pyStrip firstLine)).map pyLower)

/-- One iteration of the `for line in iterator` loop of
`GenerateMesh.execute` (src/__init__.py:144-157): append a vertex on a
`"v "` line, a face on an `"f "` line, skip (`continue`) anything else.
The accumulator carries the `verts` and `faces` lists; the mesh is rebuilt
from exactly these lists after each append. -/
def scanStep (acc : List (List ℚ) × List (List Int)) (line : String) :
    Except PyErr (List (List ℚ) × List (List Int)) :=
  if pyStartsWith "v " line then
    match _obj_vertex_to_bpy line with
    | some v => .ok (acc.1 ++ [v], acc.2)
    | none => .error .valueError
  else if pyStartsWith "f " line then
    match _obj_face_to_bpy line with
    | some f => .ok (acc.1, acc.2 ++ [f])
    | none => .error .valueError
  else .ok acc

/-- The whole accumulation loop, starting from the empty `verts`/`faces`
lists of src/__init__.py:139-141. -/
def scanLines (lines : List String) : Except PyErr (List (List ℚ) × List (List Int)) :=
  lines.foldlM scanStep ([], [])

/-- `GenerateMesh.execute`'s consumption of the generated line stream
(src/__init__.py:126-157): the first line (via `next(iterator)`) becomes
the mesh/object name, the remaining lines feed the vertex/face loop. -/
def executeScan (lines : List String) :
    Except PyErr (String × (List (List ℚ) × List (List Int))) :=
  match lines with
  | [] => .error .stopIteration
  | first :: rest => do
    let vf ← scanLines rest
    pure (meshName first, vf)

/- ### `_wrapper.py`: `_progressive_download` -/

/-- Pad a decimal rendering to width 3, Python's `f"{n:3}"`. -/
def padLeft3 (s : String) : String :=
  if 3 ≤ s.length then s else (List.replicate (3 - s.length) ' ').asString ++ s

/-- The progress text `f"{int(100.0 * save_file.tell() / size):3}%"` of
_wrapper.py:160, with the float division and `int` truncation modelled as
exact truncated integer division (exact whenever the float quotient is;
the claims never depend on the percentage digits). -/
def progressText (size : Int) (tell : Nat) : String :=
  padLeft3 (toString (Int.tdiv (100 * (tell : Int)) size)) ++ "%"

/-- Outcome of `_progressive_download`: the bytes written into `save_file`,
the progress strings printed, and the exception raised, if any. -/
structure DlResult where
  written : List Nat
  progress : List String
  error : Option PyErr

/-- The `while chunk := resp.read(524288)` loop of _wrapper.py:165-173:
each chunk is printed about (progress text from `save_file.tell()` before
the write) and then written; the loop stops at the first falsy (empty)
chunk. -/
def dlLoop (getProgress : Nat → String) :
    List (List Nat) → List Nat → List Nat × List String
  | [], written => (written, [])
  | c :: cs, written =>
    if c = [] then (written, [])
    else
      ((dlLoop getProgress cs (written ++ c)).1,
        getProgress written.length :: (dlLoop getProgress cs (written ++ c)).2)

/-- `_progressive_download` (_wrapper.py:140-175), parameterised by the
response: the `Content-Length` header value (`none` when the header is
absent, in which case `resp.headers[...]` returns `None` and `int(None)`
raises `TypeError`) and the successive chunks `resp.read(524288)` returns. -/
def _progressive_download (contentLength : Option String)
    (chunks : List (List Nat)) : DlResult :=
  match contentLength with
  | none => ⟨[], [], some .typeError⟩
  | some s =>
    match pyInt s with
    | none => ⟨[], [], some .valueError⟩
    | some size =>
      let getProgress : Nat → String :=
        if size ≠ 0 then fun tell => progressText size tell else fun _ => ""
      let r := dlLoop getProgress chunks []
      ⟨r.1, r.2, none⟩

/- ### `_wrapper.py`: `_ensure_binary` -/

/-- `pathlib.Path(p).name`: the last `/`-separated component. -/
def pathName (p : String) : String :=
  match (splitOnP (fun c => c = '/') p.data).getLast? with
  | some l => l.asString
  | none => p

/-- The state `_ensure_binary` reads and writes: the text content of the
`version_info` marker file and the names of the files in `bin/`. -/
structure BinEnv where
  verInfo : String
  binFiles : List String
  deriving DecidableEq, Repr

/-- Result of `_ensure_binary`: the final state, whether a download was
performed, and the exception raised, if any. -/
structure BinResult where
  env : BinEnv
  downloaded : Bool
  error : Option PyErr
  deriving DecidableEq, Repr

/-- The marker text written at _wrapper.py:218:
`f"{platform.system()}\n{_LLAMA_CPP_BUILD}"`. -/
def versionMarker (system build : String) : String :=
  system ++ "\n" ++ build

/-- The (platform, build) pair `_ensure_binary` recovers from the marker
file at _wrapper.py:184-190: `("", "")` for a blank file, the first two
lines otherwise, and `none` for the `IndexError` on a one-line file. -/
def recordedPair (env : BinEnv) : Option (String × String) :=
  match pySplitlines (pyStrip env.verInfo) with
  | [] => some ("", "")
  | [_] => none
  | a :: b :: _ => some (a, b)

/-- `_ensure_binary` (_wrapper.py:178-218), parameterised by the current
`platform.system()`, the target `_LLAMA_CPP_BUILD`, and the entry names of
the downloaded zip (each saved under its `pathlib.Path(...).name`, replacing
every previous file of `bin/`). -/
def _ensure_binary (system build : String) (zipNames : List String)
    (env : BinEnv) : BinResult :=
  match pySplitlines (pyStrip env.verInfo) with
  | [] =>
    if "" = system ∧ "" = build then ⟨env, false, none⟩
    else ⟨⟨versionMarker system build, zipNames.map pathName⟩, true, none⟩
  | [_] => ⟨env, false, some .indexError⟩
  | oldOs :: oldBuild :: _ =>
    if oldOs = system ∧ oldBuild = build then ⟨env, false, none⟩
    else ⟨⟨versionMarker system build, zipNames.map pathName⟩, true, none⟩

/- ### `_wrapper.py`: `_ensure_gguf` -/

/-- The fragment of the filesystem under `gguf/`: file name to byte
content. -/
def FS : Type := String → Option (List Nat)

/-- Create or truncate-and-write a file. -/
def fsSet (fs : FS) (p : String) (v : List Nat) : FS :=
  fun q => if q = p then some v else fs q

/-- Delete a file. -/
def fsRemove (fs : FS) (p : String) : FS :=
  fun q => if q = p then none else fs q

/-- Python `PurePath.with_suffix` on a file name: replace the tail from the
last `.` (a leading dot does not start a suffix) or append when there is
none. -/
def pyWithSuffix (name : String) (suffix : String) : String :=
  let l := name.data
  match ((List.range l.length).filter
      (fun i => (l.get? i == some '.') && (i != 0))).getLast? with
  | some i => (l.take i).asString ++ suffix
  | none => name ++ suffix

/-- Result of `_ensure_gguf`: the final filesystem state, whether a
download was attempted, and the exception raised, if any. -/
structure GgufResult where
  fs : FS
  downloaded : Bool
  error : Option PyErr

/-- `_ensure_gguf` (_wrapper.py:221-241): skip when the model file exists;
otherwise stream the download into the `.temp`-suffixed name (the `"wb"`
open creates it, holding whatever was written when an error propagates) and
rename it onto the model name only after the download completed. The
response is passed as in `_progressive_download`. -/
def _ensure_gguf (modelUrl : String) (contentLength : Option String)
    (chunks : List (List Nat)) (fs : FS) : GgufResult :=
  let modelName := pathName modelUrl
  if (fs modelName).isSome then ⟨fs, false, none⟩
  else
    let dlName := pyWithSuffix modelName ".temp"
    let dl := _progressive_download contentLength chunks
    let fs1 := fsSet fs dlName dl.written
    match dl.error with
    | some e => ⟨fs1, true, some e⟩
    | none => ⟨fsSet (fsRemove fs1 dlName) modelName dl.written, true, none⟩

/- ### `_wrapper.py`: `LlamaCppWrapper.generate_oneshot` -/

/-- `_LLAMA_CPP_PARAM` (_wrapper.py:65-75): `" ".join(["-ngl 999", "-fa"])`
(the other entries are commented out in the source). -/
def _LLAMA_CPP_PARAM : String :=
  pyJoin " " ["-ngl 999", "-fa"]

/-- The f-string command line built at _wrapper.py:301:
`f'"{binary_path}" {_LLAMA_CPP_PARAM} {" ".join(args)} -m "{model_path}" -p "{prompt}"'`. -/
def oneshotCommand (binaryPath modelPath prompt : String)
    (args : List String) : String :=
  "\"" ++ binaryPath ++ "\" " ++ _LLAMA_CPP_PARAM ++ " " ++ pyJoin " " args
    ++ " -m \"" ++ modelPath ++ "\" -p \"" ++ prompt ++ "\""

/-- Observable state of the spawned subprocess interaction. -/
structure ProcState where
  yielded : List String
  waited : Bool
  killed : Bool
  deriving DecidableEq, Repr

/-- Python `try/finally` with a non-raising `finally` block: the block runs
on every exit of the body, normal or exceptional, and the body's outcome is
preserved. -/
def pyTryFinally {α : Type} (body : ProcState → Except PyErr α × ProcState)
    (fin : ProcState → ProcState) (s : ProcState) :
    Except PyErr α × ProcState :=
  match body s with
  | (r, s1) => (r, fin s1)

/-- The `while line := process.stdout.readline()` loop of
_wrapper.py:308-310 over the process's stdout lines; `failAt = some n`
models an exception raised in the n-th iteration (a decode error in the
body, or an exception the consumer throws into the generator at the
`yield`), before that line is delivered. -/
def readLoop (failAt : Option Nat) :
    List String → ProcState → Except PyErr Unit × ProcState
  | [], s => (Except.ok (), s)
  | line :: rest, s =>
    match failAt with
    | some 0 => (Except.error .runtimeError, s)
    | _ =>
      readLoop (failAt.map (fun n => n - 1)) rest
        { s with yielded := s.yielded ++ [line] }

/-- `LlamaCppWrapper.generate_oneshot` (_wrapper.py:300-316) after the
`Popen`: the read loop and `process.wait()` run inside `try`, and
`process.kill()` is the `finally` block. `stdoutLines` are the lines the
subprocess writes before end-of-stream. -/
def generate_oneshot (stdoutLines : List String) (failAt : Option Nat)
    (s : ProcState) : Except PyErr Unit × ProcState :=
  pyTryFinally
    (fun s0 =>
      match readLoop failAt stdoutLines s0 with
      | (Except.ok _, s1) => (Except.ok (), { s1 with waited := true })
      | (Except.error e, s1) => (Except.error e, s1))
    (fun s1 => { s1 with killed := true })
    s

/- ### Helper lemmas -/

/-- The read loop reaches end-of-stream normally when nothing raises. -/
theorem readLoop_none_ok (lines : List String) (s : ProcState) :
    ∃ s1, readLoop none lines s = (Except.ok (), s1) := by
  induction lines generalizing s with
  | nil => exact ⟨s, rfl⟩
  | cons l rest ih =>
    simpa [readLoop, Option.map] using ih { s with yielded := s.yielded ++ [l] }

/-- The read loop propagates an exception raised before the stream ends. -/
theorem readLoop_fail_err (lines : List String) (n : Nat) (s : ProcState)
    (h : n < lines.length) :
    ∃ s1, readLoop (some n) lines s = (Except.error PyErr.runtimeError, s1) := by
  induction lines generalizing n s with
  | nil => simp at h
  | cons l rest ih =>
    cases n with
    | zero => exact ⟨s, rfl⟩
    | succ m =>
      have hm : m < rest.length := by simpa using h
      simpa [readLoop, Option.map] using
        ih m { s with yielded := s.yielded ++ [l] } hm

/-- Claim C1: for every OBJ face line of the form `f <i> <j> <k>` with three
integer tokens, `_obj_face_to_bpy` returns the triple of those integers each
decremented by one. -/
theorem obj_face_decrements_indices (line a b c : String) (i j k : Int)
    (hline : pyStartsWith "f " line = true)
    (hsplit : pySplit (pySliceFrom 2 line) = [a, b, c])
    (ha : pyInt a = some i) (hb : pyInt b = some j) (hc : pyInt c = some k) :
    _obj_face_to_bpy line = some [i - 1, j - 1, k - 1] := by
  simp [_obj_face_to_bpy, List.mapM, List.mapM.loop, hsplit, ha, hb, hc]

/-- Witness for C1: the line `"f 1 2 3"` yields `(0, 1, 2)`. -/
theorem obj_face_decrements_indices_witness :
    _obj_face_to_bpy "f 1 2 3" = some [0, 1, 2] := by
  have h := obj_face_decrements_indices "f 1 2 3" "1" "2" "3" 1 2 3
    (by decide) (by decide) (by decide) (by decide) (by decide)
  simpa using h

/-- Claim C2: for every OBJ vertex line of the form `v <x> <y> <z>` with
three numeric tokens, `_obj_vertex_to_bpy` returns the triple of those
tokens converted to (here: exact-rational) floating-point values. -/
theorem obj_vertex_converts_floats (line a b c : String) (x y z : ℚ)
    (hline : pyStartsWith "v " line = true)
    (hsplit : pySplit (pySliceFrom 2 line) = [a, b, c])
    (ha : pyFloat a = some x) (hb : pyFloat b = some y)
    (hc : pyFloat c = some z) :
    _obj_vertex_to_bpy line = some [x, y, z] := by
  simp [_obj_vertex_to_bpy, List.mapM, List.mapM.loop, hsplit, ha, hb, hc]

/-- Witness for C2: the line `"v 1 2 3"` yields `(1.0, 2.0, 3.0)`. -/
theorem obj_vertex_converts_floats_witness :
    _obj_vertex_to_bpy "v 1 2 3" = some [1, 2, 3] := by
  have h := obj_vertex_converts_floats "v 1 2 3" "1" "2" "3" 1 2 3
    (by decide) (by decide) (by decide) (by decide) (by decide)
  simpa using h

/-- Claim C6: the command line passed to the subprocess is the quoted binary
path, then exactly the fixed flags `-ngl 999 -fa`, then the caller-supplied
extra argument strings, then `-m` with the quoted model path, then `-p` with
the quoted prompt. -/
theorem oneshot_command_layout (binaryPath modelPath prompt : String)
    (args : List String) :
    oneshotCommand binaryPath modelPath prompt args =
      "\"" ++ binaryPath ++ "\" " ++ "-ngl 999 -fa" ++ " " ++ pyJoin " " args
        ++ " -m \"" ++ modelPath ++ "\" -p \"" ++ prompt ++ "\"" := rfl

/-- Claim C9: a marker file holding exactly one non-blank line makes
`_ensure_binary` raise an uncaught `IndexError`, leaving the state
unchanged and downloading nothing. -/
theorem ensure_binary_one_line_marker_raises (system build x : String)
    (zipNames : List String) (env : BinEnv)
    (h : pySplitlines (pyStrip env.verInfo) = [x]) :
    _ensure_binary system build zipNames env =
      ⟨env, false, some PyErr.indexError⟩ := by
  unfold _ensure_binary
  rw [h]

/-- Witness for C9: a marker file whose content is the single line
`"Linux"`. -/
theorem ensure_binary_one_line_marker_raises_witness :
    _ensure_binary "Linux" "b4227" ["llama-cli"] ⟨"Linux", []⟩ =
      ⟨⟨"Linux", []⟩, false, some PyErr.indexError⟩ :=
  ensure_binary_one_line_marker_raises "Linux" "b4227" "Linux" ["llama-cli"]
    ⟨"Linux", []⟩ (by decide)

/-- Unfolding of `generate_oneshot` by the read loop outcome. -/
theorem generate_oneshot_eq (stdoutLines : List String) (failAt : Option Nat)
    (s : ProcState) :
    generate_oneshot stdoutLines failAt s =
      match readLoop failAt stdoutLines s with
      | (Except.ok _, s1) =>
        (Except.ok (), { s1 with waited := true, killed := true })
      | (Except.error e, s1) => (Except.error e, { s1 with killed := true }) := by
  simp only [generate_oneshot, pyTryFinally]
  rcases h : readLoop failAt stdoutLines s with ⟨e | a, s1⟩ <;> simp

/-- Claim C4: in the scan loop, a line starting with neither `"v "` nor
`"f "` leaves the vertex and face lists unchanged; a `"v "` line only
appends one vertex, and an `"f "` line only appends one face. -/
theorem scan_step_frame (verts : List (List ℚ)) (faces : List (List Int))
    (line : String) :
    (pyStartsWith "v " line = false → pyStartsWith "f " line = false →
      scanStep (verts, faces) line = .ok (verts, faces))
    ∧ (∀ r, scanStep (verts, faces) line = .ok r →
        (pyStartsWith "v " line = true →
          r.2 = faces ∧ ∃ v, r.1 = verts ++ [v])
        ∧ (pyStartsWith "f " line = true →
          r.1 = verts ∧ ∃ f, r.2 = faces ++ [f])) := by
  have hvf : ¬ (pyStartsWith "v " line = true ∧ pyStartsWith "f " line = true) := by
    rintro ⟨hv, hf⟩
    simp only [pyStartsWith, decide_eq_true_eq] at hv hf
    have hv2 : line.data.take 2 = ['v', ' '] := hv
    have hf2 : line.data.take 2 = ['f', ' '] := hf
    rw [hv2] at hf2
    exact absurd hf2 (by decide)
  constructor
  · intro hv hf
    simp [scanStep, hv, hf]
  · intro r hr
    constructor
    · intro hv
      have hf : pyStartsWith "f " line = false := by
        rcases Bool.eq_false_or_eq_true (pyStartsWith "f " line) with h | h
        · exact absurd ⟨hv, h⟩ hvf
        · exact h
      simp only [scanStep, hv, if_true] at hr
      cases hvert : _obj_vertex_to_bpy line with
      | none => rw [hvert] at hr; cases hr
      | some v =>
        rw [hvert] at hr
        cases hr
        exact ⟨rfl, v, rfl⟩
    · intro hf
      have hv : pyStartsWith "v " line = false := by
        rcases Bool.eq_false_or_eq_true (pyStartsWith "v " line) with h | h
        · exact absurd ⟨h, hf⟩ hvf
        · exact h
      simp only [scanStep, hv, hf, if_false, if_true, Bool.false_eq_true] at hr
      cases hface : _obj_face_to_bpy line with
      | none => rw [hface] at hr; cases hr
      | some f =>
        rw [hface] at hr
        cases hr
        exact ⟨rfl, f, rfl⟩

/-- Witness for C4: a comment-like line changes nothing, and a concrete
`"v "` line appends exactly one vertex while leaving faces alone. -/
theorem scan_step_frame_witness :
    scanStep ([], []) "Here is a 3D model of a barrel:" = .ok ([], [])
    ∧ (([[1, 2, 3], [0, 0, 0]], ([] : List (List Int))).2 = []
        ∧ ∃ v, (([[1, 2, 3], [0, 0, 0]] : List (List ℚ)), ([] : List (List Int))).1
            = [[1, 2, 3]] ++ [v]) := by
  refine ⟨(scan_step_frame [] [] "Here is a 3D model of a barrel:").1 rfl rfl, ?_⟩
  exact ((scan_step_frame [[1, 2, 3]] [] "v 0 0 0").2
    ([[1, 2, 3], [0, 0, 0]], []) rfl).1 rfl

/-- Claim C5: `generate_oneshot` kills the subprocess on every exit of its
read loop — after normal end-of-stream, and when the loop body or the
consumer raises; an in-loop exception does propagate, and the kill in the
cleanup path runs unconditionally. -/
theorem generate_oneshot_kills_on_every_exit (stdoutLines : List String)
    (failAt : Option Nat) (s : ProcState) :
    ((generate_oneshot stdoutLines failAt s).2.killed = true)
    ∧ (failAt = none →
        ∃ s1, generate_oneshot stdoutLines failAt s = (Except.ok (), s1))
    ∧ (∀ n, failAt = some n → n < stdoutLines.length →
        ∃ s1, generate_oneshot stdoutLines failAt s
          = (Except.error PyErr.runtimeError, s1)) := by
  refine ⟨?_, ?_, ?_⟩
  · rw [generate_oneshot_eq]
    rcases h : readLoop failAt stdoutLines s with ⟨e | a, s1⟩ <;> simp
  · rintro rfl
    obtain ⟨s1, h1⟩ := readLoop_none_ok stdoutLines s
    rw [generate_oneshot_eq, h1]
    exact ⟨_, rfl⟩
  · rintro n rfl hn
    obtain ⟨s1, h1⟩ := readLoop_fail_err stdoutLines n s hn
    rw [generate_oneshot_eq, h1]
    exact ⟨_, rfl⟩

/-- Witness for C5: with a two-line stream, the subprocess is killed after a
clean end-of-stream run, and an exception in the first iteration still
propagates. -/
theorem generate_oneshot_kills_on_every_exit_witness :
    ((generate_oneshot ["a", "b"] none ⟨[], false, false⟩).2.killed = true)
    ∧ (∃ s1, generate_oneshot ["a", "b"] (some 0) ⟨[], false, false⟩
        = (Except.error PyErr.runtimeError, s1)) :=
  ⟨(generate_oneshot_kills_on_every_exit ["a", "b"] none ⟨[], false, false⟩).1,
    (generate_oneshot_kills_on_every_exit ["a", "b"] (some 0)
      ⟨[], false, false⟩).2.2 0 rfl (by decide)⟩

/-- The call following a marker write performs no download. -/
theorem ensure_binary_after_write (system build : String)
    (zipNames binFiles : List String)
    (hround : pySplitlines (pyStrip (versionMarker system build))
      = [system, build]) :
    _ensure_binary system build zipNames ⟨versionMarker system build, binFiles⟩
      = ⟨⟨versionMarker system build, binFiles⟩, false, none⟩ := by
  unfold _ensure_binary
  simp [hround]

/-- Unfolding of `_ensure_binary` on a blank marker. -/
theorem ensure_binary_eq_empty (system build : String) (zipNames : List String)
    (env : BinEnv) (h : pySplitlines (pyStrip env.verInfo) = []) :
    _ensure_binary system build zipNames env =
      if "" = system ∧ "" = build then ⟨env, false, none⟩
      else ⟨⟨versionMarker system build, zipNames.map pathName⟩, true, none⟩ := by
  unfold _ensure_binary
  rw [h]

/-- Unfolding of `_ensure_binary` on a marker of at least two lines. -/
theorem ensure_binary_eq_cons (system build a b : String)
    (zipNames rest : List String) (env : BinEnv)
    (h : pySplitlines (pyStrip env.verInfo) = a :: b :: rest) :
    _ensure_binary system build zipNames env =
      if a = system ∧ b = build then ⟨env, false, none⟩
      else ⟨⟨versionMarker system build, zipNames.map pathName⟩, true, none⟩ := by
  unfold _ensure_binary
  rw [h]

/-- Claim C3: `_ensure_binary` downloads exactly when the marker's recorded
(platform, build) pair differs from the current platform and target build;
after a download the marker holds exactly those two current values, and an
immediately repeated call performs no download. -/
theorem ensure_binary_download_gated_by_marker (system build oldOs oldBuild : String)
    (zipNames : List String) (env : BinEnv)
    (hrec : recordedPair env = some (oldOs, oldBuild))
    (hround : pySplitlines (pyStrip (versionMarker system build))
      = [system, build]) :
    ((_ensure_binary system build zipNames env).error = none)
    ∧ ((_ensure_binary system build zipNames env).downloaded = true
        ↔ (oldOs, oldBuild) ≠ (system, build))
    ∧ ((_ensure_binary system build zipNames env).downloaded = true →
        (_ensure_binary system build zipNames env).env.verInfo
            = versionMarker system build
        ∧ _ensure_binary system build zipNames
            (_ensure_binary system build zipNames env).env
          = ⟨(_ensure_binary system build zipNames env).env, false, none⟩) := by
  rcases h : pySplitlines (pyStrip env.verInfo) with _ | ⟨a, _ | ⟨b, rest⟩⟩
  · have h2 : recordedPair env = some ("", "") := by
      unfold recordedPair
      rw [h]
    have h4 := Option.some.inj (hrec.symm.trans h2)
    have h5 : oldOs = "" := congrArg Prod.fst h4
    have h6 : oldBuild = "" := congrArg Prod.snd h4
    subst h5; subst h6
    rw [ensure_binary_eq_empty system build zipNames env h]
    by_cases hc : "" = system ∧ "" = build
    · rw [if_pos hc]
      refine ⟨rfl, ?_, ?_⟩
      · constructor
        · intro hfalse
          cases hfalse
        · intro hne
          exact absurd (by rw [← hc.1, ← hc.2]) hne
      · intro hfalse
        cases hfalse
    · rw [if_neg hc]
      refine ⟨rfl, ?_, ?_⟩
      · refine ⟨fun _ heq => hc ⟨congrArg Prod.fst heq, congrArg Prod.snd heq⟩,
          fun _ => rfl⟩
      · intro _
        exact ⟨rfl, ensure_binary_after_write system build zipNames
          (zipNames.map pathName) hround⟩
  · have h2 : recordedPair env = none := by
      unfold recordedPair
      rw [h]
    rw [h2] at hrec
    cases hrec
  · have h2 : recordedPair env = some (a, b) := by
      unfold recordedPair
      rw [h]
    have h4 := Option.some.inj (hrec.symm.trans h2)
    have h5 : oldOs = a := congrArg Prod.fst h4
    have h6 : oldBuild = b := congrArg Prod.snd h4
    subst h5; subst h6
    rw [ensure_binary_eq_cons system build oldOs oldBuild zipNames rest env h]
    by_cases hc : oldOs = system ∧ oldBuild = build
    · rw [if_pos hc]
      refine ⟨rfl, ?_, ?_⟩
      · constructor
        · intro hfalse
          cases hfalse
        · intro hne
          exact absurd (by rw [hc.1, hc.2]) hne
      · intro hfalse
        cases hfalse
    · rw [if_neg hc]
      refine ⟨rfl, ?_, ?_⟩
      · refine ⟨fun _ heq => hc ⟨congrArg Prod.fst heq, congrArg Prod.snd heq⟩,
          fun _ => rfl⟩
      · intro _
        exact ⟨rfl, ensure_binary_after_write system build zipNames
          (zipNames.map pathName) hround⟩

/-- Witness for C3: a marker recording build `b4226` forces a download for
build `b4227`, the marker is rewritten, and the repeated call does not
download. -/
theorem ensure_binary_download_gated_by_marker_witness :
    ((_ensure_binary "Linux" "b4227" ["llama-cli"] ⟨"Linux\nb4226", []⟩).downloaded
      = true)
    ∧ (_ensure_binary "Linux" "b4227" ["llama-cli"]
        (_ensure_binary "Linux" "b4227" ["llama-cli"] ⟨"Linux\nb4226", []⟩).env
      = ⟨(_ensure_binary "Linux" "b4227" ["llama-cli"] ⟨"Linux\nb4226", []⟩).env,
          false, none⟩) := by
  have h := ensure_binary_download_gated_by_marker "Linux" "b4227" "Linux" "b4226"
    ["llama-cli"] ⟨"Linux\nb4226", []⟩ (by decide) (by decide)
  have hdl : (_ensure_binary "Linux" "b4227" ["llama-cli"]
      ⟨"Linux\nb4226", []⟩).downloaded = true :=
    h.2.1.mpr (by decide)
  exact ⟨hdl, (h.2.2 hdl).2⟩

/-- The download loop with no empty chunk writes every byte and prints one
progress text per chunk. -/
theorem dlLoop_no_empty (g : Nat → String) (chunks : List (List Nat))
    (w : List Nat) (h : ∀ c ∈ chunks, c ≠ []) :
    (dlLoop g chunks w).1 = w ++ chunks.flatten
    ∧ ∀ p ∈ (dlLoop g chunks w).2, ∃ t, p = g t := by
  induction chunks generalizing w with
  | nil => simp [dlLoop]
  | cons c cs ih =>
    have hc : c ≠ [] := h c (by simp)
    have hrest : ∀ x ∈ cs, x ≠ [] := fun x hx => h x (by simp [hx])
    obtain ⟨ih1, ih2⟩ := ih (w ++ c) hrest
    constructor
    · simp [dlLoop, hc, ih1]
    · intro p hp
      rw [show dlLoop g (c :: cs) w
          = ((dlLoop g cs (w ++ c)).1,
              g w.length :: (dlLoop g cs (w ++ c)).2) from by
        simp [dlLoop, hc]] at hp
      rcases List.mem_cons.mp hp with rfl | hp2
      · exact ⟨w.length, rfl⟩
      · exact ih2 p hp2

/-- Claim C7: a missing `Content-Length` header makes
`_progressive_download` raise (the unguarded `int(None)`), writing nothing;
a header of `"0"` merely disables progress reporting (every progress text is
empty) while the download still completes with all bytes written. -/
theorem progressive_download_content_length (chunks : List (List Nat))
    (h : ∀ c ∈ chunks, c ≠ []) :
    (_progressive_download none chunks = ⟨[], [], some PyErr.typeError⟩)
    ∧ (_progressive_download (some "0") chunks).error = none
    ∧ (_progressive_download (some "0") chunks).written = chunks.flatten
    ∧ ∀ p ∈ (_progressive_download (some "0") chunks).progress, p = "" := by
  refine ⟨rfl, rfl, ?_, ?_⟩
  · show (dlLoop (fun _ => "") chunks []).1 = chunks.flatten
    simpa using (dlLoop_no_empty (fun _ => "") chunks [] h).1
  · show ∀ p ∈ (dlLoop (fun _ => "") chunks []).2, p = ""
    intro p hp
    obtain ⟨t, ht⟩ := (dlLoop_no_empty (fun _ => "") chunks [] h).2 p hp
    exact ht

/-- Witness for C7: two nonempty chunks of total content `[1, 2, 3]`. -/
theorem progressive_download_content_length_witness :
    (_progressive_download none [[1, 2], [3]] = ⟨[], [], some PyErr.typeError⟩)
    ∧ (_progressive_download (some "0") [[1, 2], [3]]).error = none
    ∧ (_progressive_download (some "0") [[1, 2], [3]]).written = [1, 2, 3] := by
  have h := progressive_download_content_length [[1, 2], [3]] (by decide)
  exact ⟨h.1, h.2.1, by rw [h.2.2.1]; rfl⟩

/-- Claim C8: the first streamed line is consumed solely as the model name —
its whitespace-separated words, lowercased and joined with underscores —
and contributes no vertex and no face: the geometry is exactly the scan of
the remaining lines, whatever the first line is. -/
theorem execute_first_line_names_only (first : String) (rest : List String) :
    executeScan (first :: rest) =
      (scanLines rest).map (fun vf =>
        (pyJoin "_" ((pySplit (pyStrip first)).map pyLower), vf)) := by
  unfold executeScan meshName
  cases h : scanLines rest <;>
    simp [h, Except.map, Except.bind, bind, Except.pure, pure]

/-- Unfolding of `_ensure_gguf` when the model file is absent. -/
theorem ensure_gguf_eq_missing (modelUrl : String) (contentLength : Option String)
    (chunks : List (List Nat)) (fs : FS)
    (h : (fs (pathName modelUrl)).isSome = false) :
    _ensure_gguf modelUrl contentLength chunks fs =
      match (_progressive_download contentLength chunks).error with
      | some e =>
        ⟨fsSet fs (pyWithSuffix (pathName modelUrl) ".temp")
            (_progressive_download contentLength chunks).written, true, some e⟩
      | none =>
        ⟨fsSet (fsRemove (fsSet fs (pyWithSuffix (pathName modelUrl) ".temp")
              (_progressive_download contentLength chunks).written)
            (pyWithSuffix (pathName modelUrl) ".temp")) (pathName modelUrl)
            (_progressive_download contentLength chunks).written, true, none⟩ := by
  simp only [_ensure_gguf]
  rw [h]
  rfl

/-- Claim C10: `_ensure_gguf` performs no download when the model file
exists; otherwise it streams into the `.temp`-suffixed name and renames only
after completion, so on a download error the final model path still does not
exist (only the temp file holds the partial bytes). -/
theorem ensure_gguf_atomic (modelUrl : String) (contentLength : Option String)
    (chunks : List (List Nat)) (fs : FS)
    (htemp : pyWithSuffix (pathName modelUrl) ".temp" ≠ pathName modelUrl) :
    ((fs (pathName modelUrl)).isSome = true →
      _ensure_gguf modelUrl contentLength chunks fs = ⟨fs, false, none⟩)
    ∧ (fs (pathName modelUrl) = none →
        (_ensure_gguf modelUrl contentLength chunks fs).downloaded = true
        ∧ ((_ensure_gguf modelUrl contentLength chunks fs).error ≠ none →
            (_ensure_gguf modelUrl contentLength chunks fs).fs (pathName modelUrl)
                = none
            ∧ (_ensure_gguf modelUrl contentLength chunks fs).fs
                (pyWithSuffix (pathName modelUrl) ".temp")
              = some (_progressive_download contentLength chunks).written)
        ∧ ((_ensure_gguf modelUrl contentLength chunks fs).error = none →
            (_ensure_gguf modelUrl contentLength chunks fs).fs (pathName modelUrl)
              = some (_progressive_download contentLength chunks).written)) := by
  constructor
  · intro hex
    unfold _ensure_gguf
    simp [hex]
  · intro hnone
    have hex : (fs (pathName modelUrl)).isSome = false := by rw [hnone]; rfl
    rw [ensure_gguf_eq_missing modelUrl contentLength chunks fs hex]
    cases herr : (_progressive_download contentLength chunks).error with
    | some e =>
      refine ⟨rfl, fun _ => ⟨?_, ?_⟩, fun hcontra => Option.noConfusion hcontra⟩
      · show fsSet fs (pyWithSuffix (pathName modelUrl) ".temp")
          (_progressive_download contentLength chunks).written (pathName modelUrl)
          = none
        unfold fsSet
        rw [if_neg (fun hx => htemp hx.symm)]
        exact hnone
      · show fsSet fs (pyWithSuffix (pathName modelUrl) ".temp")
          (_progressive_download contentLength chunks).written
          (pyWithSuffix (pathName modelUrl) ".temp")
          = some (_progressive_download contentLength chunks).written
        unfold fsSet
        rw [if_pos rfl]
    | none =>
      refine ⟨rfl, fun hcontra => absurd rfl hcontra, fun _ => ?_⟩
      show fsSet (fsRemove (fsSet fs (pyWithSuffix (pathName modelUrl) ".temp")
          (_progressive_download contentLength chunks).written)
          (pyWithSuffix (pathName modelUrl) ".temp")) (pathName modelUrl)
          (_progressive_download contentLength chunks).written (pathName modelUrl)
        = some (_progressive_download contentLength chunks).written
      unfold fsSet
      rw [if_pos rfl]

/-- Witness for C10: a missing model file plus a failing download (absent
`Content-Length`) leaves the final model name absent while the temp file
holds the (empty) partial content. -/
theorem ensure_gguf_atomic_witness :
    ((_ensure_gguf "a/m.gguf" none [] (fun _ => none)).downloaded = true)
    ∧ (_ensure_gguf "a/m.gguf" none [] (fun _ => none)).fs "m.gguf" = none := by
  have h := (ensure_gguf_atomic "a/m.gguf" none [] (fun _ => none)
    (by decide)).2 rfl
  exact ⟨h.1, (h.2.1 (by decide)).1⟩

end LlamaMeshBlender
